import Mathlib

/-!
Shallow embedding of the `httpdshutdown` Go package (a graceful-shutdown
coordinator for an http daemon) and proofs of its specified properties.

The embedding follows the source file with the accept-flag feature
(`src/unnamed/part_000`):
  * the `sync.WaitGroup` counter is an `Int`; `Done` on a zero counter
    drives it negative, which in Go panics — modelled by `Option`
    (`none` = panic);
  * a shutdown hook is modelled by an identifier together with the error
    value it returns when invoked (`none` = nil error);
  * the drain-vs-timeout `select` race in `OnStop` is modelled by an
    abstract resolve time for the WaitGroup wait and an explicit
    scheduler tie-break for the case where both channels are ready;
  * hook execution and the race resolution are recorded in an event
    trace so that ordering properties can be stated.
-/

namespace Httpdshutdown

/-- The values of Go's `http.ConnState` that a server reports:
new, active, idle, hijacked, closed. -/
inductive ConnState
  | StateNew
  | StateActive
  | StateIdle
  | StateHijacked
  | StateClosed
deriving DecidableEq, Repr

/-- A `ShutdownHook` (`func() error`), modelled by an identifier and the
error value the hook returns when invoked (`none` models a nil error). -/
structure ShutdownHook where
  id : Nat
  result : Option String
deriving DecidableEq, Repr

/-- The `Watcher` struct: WaitGroup counter, hook list, timeout in
milliseconds, and the accept flag (the RWMutex only guards the flag and
has no further observable state, so it is not represented). -/
structure Watcher where
  connsWG : Int
  shutdownHooks : List ShutdownHook
  timeoutMS : Int
  accepting : Bool
deriving DecidableEq, Repr

/-- `NewWatcher`: rejects a negative timeout, otherwise builds a watcher
with a fresh (zero) WaitGroup, a copy of the hook list, and
`accepting = false`. -/
def NewWatcher (timeoutMS : Int) (hooks : List ShutdownHook) : Except String Watcher :=
  if timeoutMS < 0 then
    Except.error "timeout must be a positive number"
  else
    Except.ok { connsWG := 0, shutdownHooks := hooks, timeoutMS := timeoutMS, accepting := false }

/-- `sync.WaitGroup.Done` (`Add(-1)`): if the counter would go negative
Go panics (`none`); otherwise the counter is decremented. -/
def wgDone (c : Int) : Option Int :=
  if c - 1 < 0 then none else some (c - 1)

/-- `RecordConnState` on a non-nil watcher: `StateNew` increments the
WaitGroup, `StateClosed` and `StateHijacked` call `Done` (which may
panic, modelled by `none`), all other states are ignored. -/
def RecordConnState (w : Watcher) (newState : ConnState) : Option Watcher :=
  match newState with
  | ConnState.StateNew => some { w with connsWG := w.connsWG + 1 }
  | ConnState.StateClosed => (wgDone w.connsWG).map (fun c => { w with connsWG := c })
  | ConnState.StateHijacked => (wgDone w.connsWG).map (fun c => { w with connsWG := c })
  | _ => some w

/-- Sequential application of a list of connection-state events through
`RecordConnState`; `none` as soon as one event panics. -/
def applyConnStates (w : Watcher) : List ConnState → Option Watcher
  | [] => some w
  | e :: rest => (RecordConnState w e).bind (fun w2 => applyConnStates w2 rest)

/-- Number of occurrences of a given connection state in an event list. -/
def countState (s : ConnState) : List ConnState → Nat
  | [] => 0
  | e :: rest => (if e = s then 1 else 0) + countState s rest

/-- Which select case of `OnStop` fires first. -/
inductive RaceWinner
  | drain
  | timer
deriving DecidableEq, Repr

/-- Events observable during a shutdown, in program order. -/
inductive StopEvent
  | setAcceptingEvt (b : Bool)
  | raceResolved (winner : RaceWinner)
  | hookInvoked (id : Nat)
deriving DecidableEq, Repr

/-- Recognizer for hook-invocation events. -/
def isHookEvt : StopEvent → Bool
  | StopEvent.hookInvoked _ => true
  | _ => false

/-- The loop body of `RunHooks`: invoke each hook in order, producing its
invocation event, and log the error of a failing hook; a failure never
stops the iteration. -/
def runHooksLoop : List ShutdownHook → List StopEvent × List String
  | [] => ([], [])
  | f :: rest =>
      let logHere : List String :=
        match f.result with
        | some e => ["shutdown hook err: " ++ e]
        | none => []
      let tail := runHooksLoop rest
      (StopEvent.hookInvoked f.id :: tail.1, logHere ++ tail.2)

/-- Result of `RunHooks`: the invocation events, the log lines, and the
returned error value. -/
structure RunHooksResult where
  events : List StopEvent
  logs : List String
  ret : Option String
deriving DecidableEq, Repr

/-- `RunHooks` on a non-nil watcher: runs every registered hook in
registration order, logs per-hook failures, and always returns nil. -/
def RunHooks (w : Watcher) : RunHooksResult :=
  let body := runHooksLoop w.shutdownHooks
  { events := body.1, logs := body.2, ret := none }

/-- `Accepting` on a non-nil watcher: sets the accept flag under the
mutex and returns a nil error. -/
def Accepting (w : Watcher) (acceptingState : Bool) : Watcher × Option String :=
  ({ w with accepting := acceptingState }, none)

/-- `IsAccepting` on a non-nil watcher: reads the accept flag under the
read lock and returns it with a nil error. -/
def IsAccepting (w : Watcher) : Bool × Option String :=
  (w.accepting, none)

/-- Time, in milliseconds, at which the spawned waiter observes the
WaitGroup at zero and signals `waitChan`: if the counter is already zero
at the call the wait resolves immediately (time 0); otherwise it is the
abstract time at which concurrent `RecordConnState` calls drain the
counter (`none` when that never happens). -/
def drainResolveTime (w : Watcher) (extraDrainTime : Option Nat) : Option Nat :=
  if w.connsWG = 0 then some 0 else extraDrainTime

/-- Resolution of the `select` over `waitChan` and `time.After`: the
strictly earlier channel wins; when both are ready at the same time the
Go runtime picks pseudo-randomly, modelled by the `tie` parameter. -/
def selectWinner (d : Option Nat) (timeoutMS : Int) (tie : RaceWinner) : RaceWinner :=
  match d with
  | none => RaceWinner.timer
  | some dt =>
      if (dt : Int) < timeoutMS then RaceWinner.drain
      else if (dt : Int) = timeoutMS then tie
      else RaceWinner.timer

/-- The winner of the race run by `OnStop` on a given watcher. -/
def stopWinner (w : Watcher) (extraDrainTime : Option Nat) (tie : RaceWinner) : RaceWinner :=
  selectWinner (drainResolveTime w extraDrainTime) w.timeoutMS tie

/-- Result of `OnStop`: the full event trace, the watcher state at
return, and the returned error value. -/
structure OnStopResult where
  trace : List StopEvent
  finalWatcher : Watcher
  ret : Option String
deriving DecidableEq, Repr

/-- `OnStop` on a non-nil watcher: first flips the accept flag to false,
then races the WaitGroup wait against `time.After(timeoutMS)`; in either
branch it runs the hooks once and returns nil (drained) or the
shutdown-timed-out error (timer fired first). -/
def OnStop (w : Watcher) (extraDrainTime : Option Nat) (tie : RaceWinner) : OnStopResult :=
  let w1 := (Accepting w false).1
  let winner := stopWinner w1 extraDrainTime tie
  let hr := RunHooks w1
  { trace := StopEvent.setAcceptingEvt false :: StopEvent.raceResolved winner :: hr.events
    finalWatcher := w1
    ret :=
      match winner with
      | RaceWinner.drain => none
      | RaceWinner.timer => some "OnStop: shutdown timed out." }

/-- Behaviour of a method called through a nil receiver: either the
program aborts (a Go panic) or the method returns a non-nil error and
execution continues. -/
inductive NilCallBehavior
  | terminates (msg : String)
  | errorReturn (msg : String)
deriving DecidableEq, Repr

/-- Recognizer for the aborting (panicking) nil-receiver behaviour. -/
def isTermination : NilCallBehavior → Bool
  | NilCallBehavior.terminates _ => true
  | NilCallBehavior.errorReturn _ => false

/-- `RecordConnState` on a nil receiver panics (the calling context does
no error checking). -/
def recordConnStateOnNil : NilCallBehavior :=
  NilCallBehavior.terminates "RecordConnState: receiver is nil"

/-- `RunHooks` on a nil receiver returns an error. -/
def runHooksOnNil : NilCallBehavior :=
  NilCallBehavior.errorReturn "RunHooks: receiver is nil"

/-- `Accepting` on a nil receiver returns an error. -/
def acceptingOnNil : NilCallBehavior :=
  NilCallBehavior.errorReturn "Accepting: receiver is nil"

/-- `IsAccepting` on a nil receiver returns an error. -/
def isAcceptingOnNil : NilCallBehavior :=
  NilCallBehavior.errorReturn "IsAccepting: receiver is nil"

/-- `OnStop` on a nil receiver returns an error. -/
def onStopOnNil : NilCallBehavior :=
  NilCallBehavior.errorReturn "OnStop: receiver is nil"

/-- `SigHandle` on a nil watcher panics (it typically runs as a
goroutine). -/
def sigHandleOnNil : NilCallBehavior :=
  NilCallBehavior.terminates "SigHandler: Watcher is nil"

/-! Helper lemmas shared by the claim theorems. -/

theorem runHooksLoop_events_eq (hs : List ShutdownHook) :
    (runHooksLoop hs).1 = hs.map (fun h => StopEvent.hookInvoked h.id) := by
  induction hs with
  | nil => rfl
  | cons f rest ih => simp [runHooksLoop, ih]

theorem onStop_ret_eq (w : Watcher) (edt : Option Nat) (tie : RaceWinner) :
    (OnStop w edt tie).ret
      = (match stopWinner w edt tie with
         | RaceWinner.drain => none
         | RaceWinner.timer => some "OnStop: shutdown timed out.") := rfl

theorem onStop_trace_eq (w : Watcher) (edt : Option Nat) (tie : RaceWinner) :
    (OnStop w edt tie).trace
      = StopEvent.setAcceptingEvt false
        :: StopEvent.raceResolved (stopWinner w edt tie)
        :: (runHooksLoop w.shutdownHooks).1 := rfl

theorem applyConnStates_accounting (es : List ConnState) :
    ∀ w w2 : Watcher, applyConnStates w es = some w2 →
      (w2.connsWG + (countState ConnState.StateClosed es : Int)
          + (countState ConnState.StateHijacked es : Int)
        = w.connsWG + (countState ConnState.StateNew es : Int))
      ∧ (0 ≤ w.connsWG → 0 ≤ w2.connsWG) := by
  induction es with
  | nil =>
    intro w w2 h
    simp [applyConnStates] at h
    subst h
    simp [countState]
  | cons e rest ih =>
    intro w w2 h
    rw [applyConnStates] at h
    cases he : RecordConnState w e with
    | none => rw [he] at h; simp at h
    | some w1 =>
      rw [he] at h
      simp only [Option.some_bind] at h
      have IH := ih w1 w2 h
      cases e <;> simp [RecordConnState, wgDone] at he
      case StateNew =>
        subst he
        simp [countState] at IH ⊢
        omega
      case StateActive =>
        subst he
        simp [countState] at IH ⊢
        omega
      case StateIdle =>
        subst he
        simp [countState] at IH ⊢
        omega
      case StateHijacked =>
        obtain ⟨c, ⟨hpos, hval⟩, he2⟩ := he
        subst he2
        subst hval
        simp [countState] at IH ⊢
        omega
      case StateClosed =>
        obtain ⟨c, ⟨hpos, hval⟩, he2⟩ := he
        subst he2
        subst hval
        simp [countState] at IH ⊢
        omega

/-! Claim theorems. -/

/-- Claim C1: every call of `OnStop` runs the registered hooks exactly
once (one invocation event per registered hook, in order), strictly
after the drain-vs-timeout race has resolved and never before,
regardless of which side wins the race. -/
theorem onStop_hooks_once_after_race (w : Watcher) (edt : Option Nat) (tie : RaceWinner) :
    ∃ pre,
      (OnStop w edt tie).trace
          = pre ++ w.shutdownHooks.map (fun h => StopEvent.hookInvoked h.id)
      ∧ (∀ e ∈ pre, isHookEvt e = false)
      ∧ StopEvent.raceResolved (stopWinner w edt tie) ∈ pre := by
  refine ⟨[StopEvent.setAcceptingEvt false,
           StopEvent.raceResolved (stopWinner w edt tie)], ?_, ?_, ?_⟩
  · rw [onStop_trace_eq, runHooksLoop_events_eq]
    rfl
  · intro e he
    simp only [List.mem_cons, List.not_mem_nil, or_false] at he
    rcases he with rfl | rfl <;> rfl
  · simp

/-- Claim C2: `OnStop` returns nil exactly when the drain wait won the
race and the shutdown-timed-out error exactly when the timer won; no
other result is possible. -/
theorem onStop_outcome_characterization (w : Watcher) (edt : Option Nat) (tie : RaceWinner) :
    ((OnStop w edt tie).ret = none ↔ stopWinner w edt tie = RaceWinner.drain)
    ∧ ((OnStop w edt tie).ret = some "OnStop: shutdown timed out."
        ↔ stopWinner w edt tie = RaceWinner.timer)
    ∧ ((OnStop w edt tie).ret = none
        ∨ (OnStop w edt tie).ret = some "OnStop: shutdown timed out.") := by
  rw [onStop_ret_eq]
  cases h : stopWinner w edt tie <;> simp

/-- Claim C3 counterexample: a watcher constructed with timeout 0 and no
live connections can still return the shutdown-timed-out error from
`OnStop`, because with a zero timeout both select channels are ready at
time 0 and the Go runtime may pick the timer case. -/
theorem onStop_timeout_zero_counterexample :
    NewWatcher 0 [] = Except.ok ⟨0, [], 0, false⟩
    ∧ (⟨0, [], 0, false⟩ : Watcher).connsWG = 0
    ∧ (OnStop ⟨0, [], 0, false⟩ none RaceWinner.timer).ret
        = some "OnStop: shutdown timed out." := by
  refine ⟨?_, rfl, ?_⟩
  · rfl
  · rfl

/-- Claim C3 (amended): for every constructed watcher with a strictly
positive timeout, if the live-connection counter is 0 when `OnStop` is
called then the drain wait resolves immediately (time 0), the drain side
wins the race outright for every scheduler resolution, and `OnStop`
returns nil without waiting the full timeout. -/
theorem onStop_drained_when_counter_zero (w : Watcher) (edt : Option Nat) (tie : RaceWinner)
    (h0 : w.connsWG = 0) (ht : 0 < w.timeoutMS) :
    drainResolveTime w edt = some 0
    ∧ stopWinner w edt tie = RaceWinner.drain
    ∧ (OnStop w edt tie).ret = none := by
  have hd : drainResolveTime w edt = some 0 := by simp [drainResolveTime, h0]
  have hw : stopWinner w edt tie = RaceWinner.drain := by
    simp [stopWinner, hd, selectWinner, ht]
  refine ⟨hd, hw, ?_⟩
  rw [onStop_ret_eq, hw]

/-- Witness for the amended claim C3 at a concrete watcher with timeout
5 and zero live connections, with the scheduler tie-break set against
the drain side. -/
theorem onStop_drained_when_counter_zero_witness :
    drainResolveTime ⟨0, [], 5, false⟩ none = some 0
    ∧ stopWinner ⟨0, [], 5, false⟩ none RaceWinner.timer = RaceWinner.drain
    ∧ (OnStop ⟨0, [], 5, false⟩ none RaceWinner.timer).ret = none :=
  onStop_drained_when_counter_zero ⟨0, [], 5, false⟩ none RaceWinner.timer rfl (by norm_num)

/-- Claim C4: starting from a freshly constructed watcher, if a sequence
of connection-state events is applied through `RecordConnState` without
panicking, the final counter equals (opened) − (closed + taken-over),
the counter is never observed negative at any prefix, and idle/active
events leave the watcher unchanged. -/
theorem recordConnState_accounting (t : Int) (hooks : List ShutdownHook)
    (es : List ConnState) (w0 w1 : Watcher)
    (hw : NewWatcher t hooks = Except.ok w0)
    (h : applyConnStates w0 es = some w1) :
    (w1.connsWG
        = (countState ConnState.StateNew es : Int)
          - ((countState ConnState.StateClosed es : Int)
             + (countState ConnState.StateHijacked es : Int)))
    ∧ 0 ≤ w1.connsWG
    ∧ (∀ p q, es = p ++ q → ∀ wp, applyConnStates w0 p = some wp → 0 ≤ wp.connsWG)
    ∧ (∀ w : Watcher, RecordConnState w ConnState.StateActive = some w
          ∧ RecordConnState w ConnState.StateIdle = some w) := by
  have h0 : w0.connsWG = 0 := by
    rw [NewWatcher] at hw
    split at hw
    · exact absurd hw (by simp)
    · cases hw
      rfl
  have main := applyConnStates_accounting es w0 w1 h
  refine ⟨by omega, by have := main.2; omega, ?_, ?_⟩
  · intro p q hpq wp hp
    have := (applyConnStates_accounting p w0 wp hp).2
    omega
  · intro w
    exact ⟨rfl, rfl⟩

/-- Witness for claim C4 at a concrete run: timeout 1000, no hooks, and
the event sequence opened, active, closed. -/
theorem recordConnState_accounting_witness :
    ((⟨0, [], 1000, false⟩ : Watcher).connsWG
        = (countState ConnState.StateNew
             [ConnState.StateNew, ConnState.StateActive, ConnState.StateClosed] : Int)
          - ((countState ConnState.StateClosed
               [ConnState.StateNew, ConnState.StateActive, ConnState.StateClosed] : Int)
             + (countState ConnState.StateHijacked
                 [ConnState.StateNew, ConnState.StateActive, ConnState.StateClosed] : Int)))
    ∧ 0 ≤ (⟨0, [], 1000, false⟩ : Watcher).connsWG
    ∧ (∀ p q, [ConnState.StateNew, ConnState.StateActive, ConnState.StateClosed] = p ++ q →
        ∀ wp, applyConnStates ⟨0, [], 1000, false⟩ p = some wp → 0 ≤ wp.connsWG)
    ∧ (∀ w : Watcher, RecordConnState w ConnState.StateActive = some w
          ∧ RecordConnState w ConnState.StateIdle = some w) :=
  recordConnState_accounting 1000 []
    [ConnState.StateNew, ConnState.StateActive, ConnState.StateClosed]
    ⟨0, [], 1000, false⟩ ⟨0, [], 1000, false⟩ rfl rfl

/-- Claim C5: `NewWatcher` fails with the invalid-configuration error on
every negative timeout and produces no coordinator; on every
non-negative timeout (including 0) and every hook list it succeeds and
returns a watcher with a zero counter and a false accept flag. -/
theorem newWatcher_validation (timeoutMS : Int) (hooks : List ShutdownHook) :
    (timeoutMS < 0 →
      NewWatcher timeoutMS hooks = Except.error "timeout must be a positive number")
    ∧ (0 ≤ timeoutMS →
      NewWatcher timeoutMS hooks
        = Except.ok { connsWG := 0, shutdownHooks := hooks,
                      timeoutMS := timeoutMS, accepting := false }) := by
  constructor
  · intro h
    simp [NewWatcher, h]
  · intro h
    simp [NewWatcher, not_lt.mpr h]

/-- Witness for claim C5 at timeouts −1 and 0. -/
theorem newWatcher_validation_witness :
    NewWatcher (-1) [] = Except.error "timeout must be a positive number"
    ∧ NewWatcher 0 []
        = Except.ok { connsWG := 0, shutdownHooks := [], timeoutMS := 0, accepting := false } :=
  ⟨(newWatcher_validation (-1) []).1 (by norm_num),
   (newWatcher_validation 0 []).2 (by norm_num)⟩

/-- Claim C6: `RunHooks` invokes each registered hook exactly once in
registration order — including hooks that fail, and including hooks
after a failing one — and returns nil regardless of individual hook
outcomes. -/
theorem runHooks_each_hook_once_in_order (w : Watcher) :
    (RunHooks w).events = w.shutdownHooks.map (fun h => StopEvent.hookInvoked h.id)
    ∧ (RunHooks w).ret = none :=
  ⟨runHooksLoop_events_eq w.shutdownHooks, rfl⟩

/-- Claim C7: setting the accept flag with `Accepting b` and then
reading it with `IsAccepting`, with no intervening write, returns `b`
(with a nil error). -/
theorem accepting_then_isAccepting (w : Watcher) (b : Bool) :
    IsAccepting (Accepting w b).1 = (b, none) := rfl

/-- Claim C8: `OnStop` flips the accept flag to false as its very first
step (the first event of its trace, before the race resolves and before
any hook runs), and the flag is still false at return, so `IsAccepting`
reports false until some other writer sets it again. -/
theorem onStop_flips_accepting_first (w : Watcher) (edt : Option Nat) (tie : RaceWinner) :
    (OnStop w edt tie).trace.head? = some (StopEvent.setAcceptingEvt false)
    ∧ (OnStop w edt tie).finalWatcher.accepting = false
    ∧ IsAccepting (OnStop w edt tie).finalWatcher = (false, none) :=
  ⟨rfl, rfl, rfl⟩

/-- Claim C9 counterexample: `RunHooks` invoked through a nil receiver
does not terminate the program; it returns a receiver-is-nil error and
execution continues. -/
theorem runHooks_nil_receiver_counterexample :
    runHooksOnNil = NilCallBehavior.errorReturn "RunHooks: receiver is nil"
    ∧ isTermination runHooksOnNil = false :=
  ⟨rfl, rfl⟩

/-- Claim C9 (amended): on an absent (nil) coordinator, `RecordConnState`
and `SigHandle` terminate the program, while `RunHooks`, `Accepting`,
`IsAccepting` and `OnStop` instead return a receiver-is-nil error; every
operation surfaces the misuse and none silently no-ops. -/
theorem nil_receiver_behaviors :
    isTermination recordConnStateOnNil = true
    ∧ isTermination sigHandleOnNil = true
    ∧ runHooksOnNil = NilCallBehavior.errorReturn "RunHooks: receiver is nil"
    ∧ acceptingOnNil = NilCallBehavior.errorReturn "Accepting: receiver is nil"
    ∧ isAcceptingOnNil = NilCallBehavior.errorReturn "IsAccepting: receiver is nil"
    ∧ onStopOnNil = NilCallBehavior.errorReturn "OnStop: receiver is nil" :=
  ⟨rfl, rfl, rfl, rfl, rfl, rfl⟩

/-- Claim C10: on a watcher whose live-connection counter is 0, a
closed or taken-over (hijacked) event makes `RecordConnState` panic via
the WaitGroup counter going negative (modelled by `none`), rather than
saturating at zero or returning an error. -/
theorem recordConnState_done_at_zero (w : Watcher) (h : w.connsWG = 0) :
    RecordConnState w ConnState.StateClosed = none
    ∧ RecordConnState w ConnState.StateHijacked = none := by
  constructor <;> simp [RecordConnState, wgDone, h]

/-- Witness for claim C10 at a freshly constructed watcher. -/
theorem recordConnState_done_at_zero_witness :
    RecordConnState ⟨0, [], 1000, false⟩ ConnState.StateClosed = none
    ∧ RecordConnState ⟨0, [], 1000, false⟩ ConnState.StateHijacked = none :=
  recordConnState_done_at_zero ⟨0, [], 1000, false⟩ rfl

end Httpdshutdown
